import Mathlib

/-!
Shallow embedding of the crypto-arbitrage bot repository
(monitorbot.py, slack_bot.py, src/flashloan_bot.py).

Modelling conventions:
Python floats and Decimals are modelled as rationals; exchange
identifiers, pair names, and timestamps are strings; the price snapshot
(a Python dict, which preserves insertion order) is an association list;
fallible code returns Except values; reading the ambient clock
(datetime.now) is modelled by an explicit timestamp parameter.
-/

namespace CryptoArb

/-- Opportunity record appended by ArbitrageBot.find_arbitrage_opportunities
(monitorbot.py lines 190-198).  The timestamp field stores the
datetime.now().isoformat() value read at the invocation. -/
structure Opportunity where
  pair : String
  buy_exchange : String
  sell_exchange : String
  buy_price : ℚ
  sell_price : ℚ
  profit_percentage : ℚ
  timestamp : String
deriving DecidableEq, Repr

/-- profit_percentage = ((sell_price - buy_price) / buy_price) * 100
(monitorbot.py line 187).  The source evaluates this only under the guard
buy_price > 0; rational division is total, so the guard can stay outside. -/
def profitPct (buy_price sell_price : ℚ) : ℚ :=
  (sell_price - buy_price) / buy_price * 100

/-- Body of the two nested loops of find_arbitrage_opportunities
(monitorbot.py lines 182-198): for a buy entry b and a sell entry s of the
snapshot, produce an Opportunity when the exchanges differ, both prices
are positive and the profit percentage reaches the threshold. -/
def oppOf (now pairName : String) (threshold : ℚ) (b s : String × ℚ) :
    Option Opportunity :=
  if b.1 ≠ s.1 ∧ 0 < b.2 ∧ 0 < s.2 ∧ threshold ≤ profitPct b.2 s.2 then
    some { pair := pairName, buy_exchange := b.1, sell_exchange := s.1,
           buy_price := b.2, sell_price := s.2,
           profit_percentage := profitPct b.2 s.2, timestamp := now }
  else none

/-- Inner loop of find_arbitrage_opportunities for a fixed buy entry:
scan every sell entry of the snapshot in order. -/
def oppsForBuy (now pairName : String) (threshold : ℚ)
    (prices : List (String × ℚ)) (b : String × ℚ) : List Opportunity :=
  prices.filterMap (oppOf now pairName threshold b)

/-- The unsorted opportunity list built by the nested loops of
find_arbitrage_opportunities (monitorbot.py lines 180-198), in the
original exchange-iteration order of the snapshot dict. -/
def genOpportunities (now pairName : String) (threshold : ℚ)
    (prices : List (String × ℚ)) : List Opportunity :=
  prices.flatMap (oppsForBuy now pairName threshold prices)

/-- Insert x in front of the first element whose profit_percentage does
not exceed x.  Inserting each earlier-generated element this way in front
of later equal keys realises the stability of Python's sorted. -/
def insHead (x : Opportunity) : List Opportunity → List Opportunity
  | [] => [x]
  | y :: ys =>
    if y.profit_percentage ≤ x.profit_percentage then x :: y :: ys
    else y :: insHead x ys

/-- sorted(opportunities, key=lambda x: profit_percentage, reverse=True)
(monitorbot.py line 200).  Python's sorted is stable: with reverse=True it
orders by the key descending while keeping the original relative order of
entries with equal keys; sortDesc is exactly that stable descending sort. -/
def sortDesc : List Opportunity → List Opportunity
  | [] => []
  | x :: xs => insHead x (sortDesc xs)

/-- ArbitrageBot.find_arbitrage_opportunities (monitorbot.py lines
172-200): fewer than two quotes yield no opportunities, otherwise the
generated opportunities sorted by profit percentage descending. -/
def find_arbitrage_opportunities (now : String) (prices : List (String × ℚ))
    (pairName : String) (threshold : ℚ) : List Opportunity :=
  if prices.length < 2 then []
  else sortDesc (genOpportunities now pairName threshold prices)

/-- Replace the timestamp of an opportunity; used to state that the
detector output depends on the clock only through the timestamp field. -/
def retime (now : String) (o : Opportunity) : Opportunity :=
  { o with timestamp := now }

/-- Trading pair as parsed by TradingPair(*pair.split('/')) in
monitorbot.py line 241.  Pair strings are modelled as lists of
characters.  The amount attribute (default 1.0) is never read by any
operation modelled here and is omitted. -/
structure TradingPair where
  base : List Char
  quote : List Char
deriving DecidableEq, Repr

/-- The configuration dict written to bot_config.json by
ArbitrageBot.save_config (monitorbot.py lines 102-117); the last_updated
timestamp is not modelled. -/
structure BotConfig where
  pairs : List TradingPair
  threshold : ℚ
  max_loan_amount : ℚ
  monitoring_enabled : Bool
  notification_enabled : Bool
deriving DecidableEq, Repr

/-- Mutable state of an ArbitrageBot instance together with the persisted
configuration file (none when nothing has been saved yet). -/
structure BotState where
  pairs : List TradingPair
  threshold : ℚ
  max_loan_amount : ℚ
  monitoring_enabled : Bool
  notification_enabled : Bool
  saved : Option BotConfig
deriving DecidableEq, Repr

/-- ArbitrageBot.save_config (monitorbot.py lines 102-117): persist the
current in-memory settings. -/
def save_config (s : BotState) : BotState :=
  let cfg : BotConfig :=
    { pairs := s.pairs, threshold := s.threshold,
      max_loan_amount := s.max_loan_amount,
      monitoring_enabled := s.monitoring_enabled,
      notification_enabled := s.notification_enabled }
  { s with saved := some cfg }

/-- Python str.split with a one-character separator: 'a/b'.split('/') =
['a','b'], ''.split('/') = [''], 'ab'.split('/') = ['ab']. -/
def pySplit (sep : Char) : List Char → List (List Char)
  | [] => [[]]
  | c :: rest =>
    match pySplit sep rest with
    | [] => [[c]]
    | g :: gs => if c = sep then [] :: g :: gs else (c :: g) :: gs

/-- TradingPair(*pair.split('/')) (monitorbot.py line 241).  One part
raises TypeError (the required quote argument is missing); two parts bind
base and quote; three parts additionally bind the amount parameter (no
error); four or more parts raise TypeError (too many arguments). -/
def parsePairString (s : List Char) : Except String TradingPair :=
  match pySplit '/' s with
  | [b, q] => Except.ok { base := b, quote := q }
  | [b, q, _a] => Except.ok { base := b, quote := q }
  | _ => Except.error "TypeError"

/-- Left-to-right evaluation of the list comprehension
[TradingPair(*pair.split('/')) for pair in new_pairs]: the first failing
element raises and no list is produced. -/
def parseTradingPairs : List (List Char) → Except String (List TradingPair)
  | [] => Except.ok []
  | p :: rest =>
    match parsePairString p with
    | Except.error e => Except.error e
    | Except.ok tp =>
      match parseTradingPairs rest with
      | Except.error e => Except.error e
      | Except.ok tps => Except.ok (tp :: tps)

namespace ArbitrageBot

/-- ArbitrageBot.update_threshold (monitorbot.py lines 245-249): assign
the new value and persist, with no validation of any kind. -/
def update_threshold (s : BotState) (new_threshold : ℚ) : BotState :=
  save_config { s with threshold := new_threshold }

/-- ArbitrageBot.update_trading_pairs (monitorbot.py lines 239-243).  The
comprehension is evaluated completely before self.pairs is assigned, so a
raise during parsing (Except.error) leaves the previous state, in-memory
and persisted, untouched: no successor state is produced. -/
def update_trading_pairs (s : BotState) (new_pairs : List (List Char)) :
    Except String BotState :=
  match parseTradingPairs new_pairs with
  | Except.error e => Except.error e
  | Except.ok ps => Except.ok (save_config { s with pairs := ps })

/-- One exchange lookup as seen by ArbitrageBot.get_prices: the adapter
call api.get_price either raises (Except.error) or returns an optional
price. -/
def priceEntry (e : String × Except String (Option ℚ)) : Option (String × ℚ) :=
  match e.2 with
  | Except.error _ => none
  | Except.ok none => none
  | Except.ok (some p) => if 0 < p then some (e.1, p) else none

/-- ArbitrageBot.get_prices (monitorbot.py lines 155-170): each exchange
lookup runs inside its own try/except, so a raising lookup is logged and
skipped, a falsy or non-positive price is skipped, and the surviving
quotes are collected in exchange order.  The function itself never
raises. -/
def get_prices (feed : List (String × Except String (Option ℚ))) :
    List (String × ℚ) :=
  feed.filterMap priceEntry

/-- Evaluation of a single pair inside the monitoring cycle
(monitorbot.py lines 208-229): fetch prices, and when any quote survived
run the detector; none models the "No prices available" branch.  Because
get_prices absorbs lookup exceptions, this body is total. -/
def evaluate_pair (now : String) (threshold : ℚ) (pairName : String)
    (feed : List (String × Except String (Option ℚ))) :
    Option (List Opportunity) :=
  if (get_prices feed).isEmpty then none
  else some (find_arbitrage_opportunities now (get_prices feed) pairName threshold)

/-- One cycle of ArbitrageBot.monitor_pairs over the configured pairs,
each pair given its per-exchange lookup outcomes. -/
def monitor_cycle (now : String) (threshold : ℚ)
    (pairFeeds : List (String × List (String × Except String (Option ℚ)))) :
    List (Option (List Opportunity)) :=
  pairFeeds.map fun pf => evaluate_pair now threshold pf.1 pf.2

/-- Whether an exchange lookup outcome is a raised exception. -/
def isErr {ε α : Type} : Except ε α → Bool
  | Except.error _ => true
  | Except.ok _ => false

/-- Control flow of monitor_pairs (monitorbot.py lines 206-237): the try
block wraps the entire for-loop over self.pairs, so an exception escaping
the body of one pair's iteration is caught by the except clause at line
234 and ends the cycle; the results of the pairs evaluated before the
raise are all the cycle produces.  The per-pair body outcomes are
supplied as data. -/
def cycleWithAbort {α : Type} : List (Except String α) → List α
  | [] => []
  | Except.ok a :: rest => a :: cycleWithAbort rest
  | Except.error _ :: _ => []

end ArbitrageBot

namespace SlackBot

/-- The three possible replies of SlackBot.update_threshold (slack_bot.py
lines 229-239), identified by branch. -/
inductive ThresholdReply where
  | rejectedNonpositive : ThresholdReply
  | rejectedTooHigh : ThresholdReply
  | updated : ℚ → ThresholdReply
deriving DecidableEq, Repr

/-- Whether the reply reports a successful update. -/
def isAccepted : ThresholdReply → Bool
  | ThresholdReply.updated _ => true
  | _ => false

/-- SlackBot.update_threshold (slack_bot.py lines 229-239): values at most
0 and values above 50 are rejected with an explicit message and the bot is
not touched; otherwise the core setter runs and the success reply is
returned. -/
def update_threshold (s : BotState) (threshold : ℚ) :
    BotState × ThresholdReply :=
  if threshold ≤ 0 then (s, ThresholdReply.rejectedNonpositive)
  else if 50 < threshold then (s, ThresholdReply.rejectedTooHigh)
  else (ArbitrageBot.update_threshold s threshold, ThresholdReply.updated threshold)

end SlackBot

/-- Opportunity dict as read by the flashloan module
(src/flashloan_bot.py): only the optional profit and amount entries are
accessed, via .get with defaults; profit_rate is read and unused;
profit_percentage is the field carried by detector-produced dicts. -/
structure FLOpportunity where
  profit : Option ℚ
  amount : Option ℚ
  profit_rate : Option ℚ
  profit_percentage : ℚ
deriving DecidableEq, Repr

namespace FlashLoanBot

/-- FlashLoanBot.calculate_optimal_loan_amount (src/flashloan_bot.py lines
91-105): ten times the opportunity's nominal amount (default 100),
clamped to self.max_loan_amount. -/
def calculate_optimal_loan_amount (max_loan_amount : ℚ)
    (opportunity : FLOpportunity) : ℚ :=
  min (opportunity.amount.getD 100 * 10) max_loan_amount

/-- A Python runtime value as it occurs in the body of
calculate_flashloan_profit: a Decimal, or the coroutine object produced
by calling an async def without await (src/flashloan_bot.py line 80
calls the async calculate_optimal_loan_amount with no await). -/
inductive PyVal where
  | dec : ℚ → PyVal
  | coroutine : PyVal
deriving DecidableEq, Repr

/-- Python multiplication on such values: Decimal * Decimal multiplies;
any coroutine operand raises TypeError (unsupported operand types). -/
def pyMul : PyVal → PyVal → Except String PyVal
  | PyVal.dec a, PyVal.dec b => Except.ok (PyVal.dec (a * b))
  | _, _ => Except.error "TypeError"

/-- Python subtraction on such values, with the same TypeError rule. -/
def pySub : PyVal → PyVal → Except String PyVal
  | PyVal.dec a, PyVal.dec b => Except.ok (PyVal.dec (a - b))
  | _, _ => Except.error "TypeError"

/-- FlashLoanBot.estimate_gas_cost (src/flashloan_bot.py lines 107-121):
on a successful oracle call, gas price times the fixed 500000 gas units,
converted from wei to ETH; when the oracle raises, the fixed fallback
Decimal("0.01").  The try/except means no failure reaches the caller. -/
def estimate_gas_cost (oracle : Except String ℕ) : ℚ :=
  match oracle with
  | Except.error _ => 1 / 100
  | Except.ok gas_price => ((gas_price * 500000 : ℕ) : ℚ) / 10 ^ 18

/-- FlashLoanBot.calculate_flashloan_profit (src/flashloan_bot.py lines
74-89), statement by statement: line 76 binds profit to the
opportunity's flat profit entry (default 0) as a Decimal; line 80 binds
loan_amount to self.calculate_optimal_loan_amount(opportunity) WITHOUT
await, so loan_amount is a coroutine object, not a number; line 81
multiplies that coroutine by the Decimal fee rate 0.0009 and therefore
raises TypeError before the gas estimate at line 84 or the subtractions
at line 87 are ever reached.  self.max_loan_amount is never read at run
time, because the coroutine that would read it is never awaited. -/
def calculate_flashloan_profit (gas_oracle : Except String ℕ)
    (opportunity : FLOpportunity) : Except String ℚ := do
  let profit := PyVal.dec (opportunity.profit.getD 0)
  let loan_amount := PyVal.coroutine
  let flashloan_fee ← pyMul loan_amount (PyVal.dec (9 / 10000))
  let gas_cost := PyVal.dec (estimate_gas_cost gas_oracle)
  let net1 ← pySub profit flashloan_fee
  let net_profit ← pySub net1 gas_cost
  match net_profit with
  | PyVal.dec q => Except.ok q
  | PyVal.coroutine => Except.error "TypeError"

end FlashLoanBot

/-- Transcription of the spec's estimate_net_profit contract (spec section
4.2), stated only for comparison with calculate_flashloan_profit:
net_profit = loan_amount * profit_percentage / 100 - loan_amount *
fee_rate - gas_cost_estimate. -/
def estimate_net_profit_spec
    (loan_amount profit_percentage fee_rate gas_cost_estimate : ℚ) : ℚ :=
  loan_amount * profit_percentage / 100 - loan_amount * fee_rate
    - gas_cost_estimate

/-- Concrete snapshot of end-to-end scenario A of the spec. -/
def prices0 : List (String × ℚ) := [("X", 100), ("Y", 102)]

/-- The single opportunity the detector finds on prices0 at threshold 1,
stamped "t0". -/
def opp0 : Opportunity :=
  { pair := "WETH/USDC", buy_exchange := "X", sell_exchange := "Y",
    buy_price := 100, sell_price := 102, profit_percentage := 2,
    timestamp := "t0" }

/-- A bot state with the default threshold 1.0 and nothing persisted. -/
def botState0 : BotState :=
  { pairs := [], threshold := 1, max_loan_amount := 1000,
    monitoring_enabled := true, notification_enabled := true,
    saved := none }

/-- The opportunity of end-to-end scenario C of the spec:
profit_percentage 5.0 and no flat profit or amount entry (a
detector-produced dict carries neither). -/
def scenarioC : FLOpportunity :=
  { profit := none, amount := none, profit_rate := none,
    profit_percentage := 5 }

/-- An opportunity dict whose nominal amount entry is 0. -/
def oppZeroAmount : FLOpportunity :=
  { profit := none, amount := some 0, profit_rate := none,
    profit_percentage := 5 }

/-- A pair string without a '/' separator. -/
def badPair : List Char := ['I', 'N', 'V', 'A', 'L', 'I', 'D']

/-- Membership is preserved by insertion. -/
theorem mem_insHead (x a : Opportunity) (l : List Opportunity) :
    a ∈ insHead x l ↔ a = x ∨ a ∈ l := by
  induction l with
  | nil => simp [insHead]
  | cons y ys ih =>
    by_cases h : y.profit_percentage ≤ x.profit_percentage
    · simp [insHead, h]
    · simp only [insHead, if_neg h, List.mem_cons, ih]
      tauto

/-- The stable sort is a reordering: membership is unchanged. -/
theorem mem_sortDesc (a : Opportunity) (l : List Opportunity) :
    a ∈ sortDesc l ↔ a ∈ l := by
  induction l with
  | nil => simp [sortDesc]
  | cons x xs ih => simp [sortDesc, mem_insHead, ih]

/-- Insertion preserves the descending pairwise ordering. -/
theorem pairwise_insHead (x : Opportunity) (l : List Opportunity)
    (h : l.Pairwise fun a b => b.profit_percentage ≤ a.profit_percentage) :
    (insHead x l).Pairwise
      fun a b => b.profit_percentage ≤ a.profit_percentage := by
  induction l with
  | nil => simp [insHead]
  | cons y ys ih =>
    rw [List.pairwise_cons] at h
    obtain ⟨hy, hys⟩ := h
    by_cases hc : y.profit_percentage ≤ x.profit_percentage
    · simp only [insHead, if_pos hc]
      refine List.Pairwise.cons ?_ (List.Pairwise.cons hy hys)
      intro z hz
      rcases List.mem_cons.mp hz with rfl | hz2
      · exact hc
      · exact le_trans (hy z hz2) hc
    · simp only [insHead, if_neg hc]
      refine List.Pairwise.cons ?_ (ih hys)
      intro z hz
      rcases (mem_insHead x z ys).mp hz with rfl | hz2
      · exact le_of_lt (lt_of_not_le hc)
      · exact hy z hz2

/-- The sorted output is descending in profit_percentage. -/
theorem sortDesc_pairwise (l : List Opportunity) :
    (sortDesc l).Pairwise
      fun a b => b.profit_percentage ≤ a.profit_percentage := by
  induction l with
  | nil => simp [sortDesc]
  | cons x xs ih => exact pairwise_insHead x _ ih

/-- Inserting x only passes over elements with a strictly larger key, so
the sublist at any fixed key gains x at its front exactly when x carries
that key. -/
theorem filter_insHead (k : ℚ) (x : Opportunity) (l : List Opportunity) :
    (insHead x l).filter (fun o => decide (o.profit_percentage = k)) =
      if x.profit_percentage = k then
        x :: l.filter fun o => decide (o.profit_percentage = k)
      else l.filter fun o => decide (o.profit_percentage = k) := by
  induction l with
  | nil => by_cases hx : x.profit_percentage = k <;> simp [insHead, hx]
  | cons y ys ih =>
    by_cases hc : y.profit_percentage ≤ x.profit_percentage
    · have h1 : insHead x (y :: ys) = x :: y :: ys := by simp [insHead, hc]
      rw [h1]
      by_cases hx : x.profit_percentage = k
      · rw [List.filter_cons, if_pos (by simp [hx]), if_pos hx]
      · rw [List.filter_cons, if_neg (by simp [hx]), if_neg hx]
    · have h1 : insHead x (y :: ys) = y :: insHead x ys := by
        simp [insHead, hc]
      rw [h1, List.filter_cons]
      by_cases hy : y.profit_percentage = k
      · have hx : ¬ x.profit_percentage = k := by
          intro hx
          exact hc (by rw [hx, hy])
        rw [if_pos (by simp [hy]), ih, if_neg hx, if_neg hx,
          List.filter_cons, if_pos (by simp [hy])]
      · rw [if_neg (by simp [hy]), ih]
        by_cases hx : x.profit_percentage = k
        · rw [if_pos hx, if_pos hx, List.filter_cons, if_neg (by simp [hy])]
        · rw [if_neg hx, if_neg hx, List.filter_cons, if_neg (by simp [hy])]

/-- Stability of the sort, stated as in the classical characterisation of
a key-based stable sort: at every key value, the sorted output restricted
to that key is the input restricted to that key, in the same order. -/
theorem sortDesc_filter (k : ℚ) (l : List Opportunity) :
    (sortDesc l).filter (fun o => decide (o.profit_percentage = k)) =
      l.filter fun o => decide (o.profit_percentage = k) := by
  induction l with
  | nil => rfl
  | cons x xs ih =>
    rw [show sortDesc (x :: xs) = insHead x (sortDesc xs) from rfl,
      filter_insHead]
    by_cases hx : x.profit_percentage = k <;> simp [hx, List.filter_cons, ih]

/-- A snapshot with fewer than two entries generates no opportunities. -/
theorem genOpportunities_short (now pairName : String) (threshold : ℚ)
    (prices : List (String × ℚ)) (h : prices.length < 2) :
    genOpportunities now pairName threshold prices = [] := by
  cases prices with
  | nil => rfl
  | cons a rest =>
    cases rest with
    | nil => simp [genOpportunities, oppsForBuy, oppOf]
    | cons b rest2 => simp at h; omega

/-- The per-combination record depends on the clock only through its
timestamp field. -/
theorem oppOf_retime (now1 now2 pairName : String) (threshold : ℚ)
    (b s : String × ℚ) :
    oppOf now1 pairName threshold b s =
      (oppOf now2 pairName threshold b s).map (retime now1) := by
  by_cases h : b.1 ≠ s.1 ∧ 0 < b.2 ∧ 0 < s.2 ∧ threshold ≤ profitPct b.2 s.2 <;>
    simp [oppOf, h, retime]

/-- The inner loop depends on the clock only through timestamps. -/
theorem oppsForBuy_retime (now1 now2 pairName : String) (threshold : ℚ)
    (prices : List (String × ℚ)) (b : String × ℚ) :
    oppsForBuy now1 pairName threshold prices b =
      (oppsForBuy now2 pairName threshold prices b).map (retime now1) := by
  unfold oppsForBuy
  rw [List.map_filterMap]
  congr 1
  funext s
  exact oppOf_retime now1 now2 pairName threshold b s

/-- The generated list depends on the clock only through timestamps. -/
theorem genOpportunities_retime (now1 now2 pairName : String) (threshold : ℚ)
    (prices : List (String × ℚ)) :
    genOpportunities now1 pairName threshold prices =
      (genOpportunities now2 pairName threshold prices).map (retime now1) := by
  unfold genOpportunities
  rw [List.map_flatMap]
  congr 1
  funext b
  exact oppsForBuy_retime now1 now2 pairName threshold prices b

/-- Restamping all timestamps commutes with insertion, because the
comparison key ignores the timestamp. -/
theorem insHead_retime (now : String) (x : Opportunity)
    (l : List Opportunity) :
    insHead (retime now x) (l.map (retime now)) =
      (insHead x l).map (retime now) := by
  induction l with
  | nil => rfl
  | cons y ys ih =>
    by_cases h : y.profit_percentage ≤ x.profit_percentage
    · simp [insHead, retime, h]
    · simp only [List.map_cons, insHead, retime, if_neg h]
      simp [← ih, retime]

/-- Restamping all timestamps commutes with the stable sort. -/
theorem sortDesc_retime (now : String) (l : List Opportunity) :
    sortDesc (l.map (retime now)) = (sortDesc l).map (retime now) := by
  induction l with
  | nil => rfl
  | cons x xs ih =>
    simp only [List.map_cons,
      show ∀ z zs, sortDesc (z :: zs) = insHead z (sortDesc zs)
        from fun z zs => rfl]
    rw [ih, insHead_retime]

/-- Concrete run of the detector on the scenario-A snapshot at threshold
1: exactly one opportunity, buy on X at 100, sell on Y at 102, profit
percentage 2, carrying the clock value of the invocation. -/
theorem find_arb_eval (now : String) :
    find_arbitrage_opportunities now prices0 "WETH/USDC" 1 =
      [{ pair := "WETH/USDC", buy_exchange := "X", sell_exchange := "Y",
         buy_price := 100, sell_price := 102, profit_percentage := 2,
         timestamp := now }] := by
  norm_num [find_arbitrage_opportunities, genOpportunities, oppsForBuy,
    oppOf, profitPct, sortDesc, insHead, prices0, List.filterMap]

/-- Scenario B of the spec: a 0.5 percent divergence stays below the 1
percent threshold, so the detector returns nothing. -/
theorem scenarioB_below_threshold :
    find_arbitrage_opportunities "t0" [("X", 100), ("Y", (201 : ℚ) / 2)]
      "WETH/USDC" 1 = [] := by
  norm_num [find_arbitrage_opportunities, genOpportunities, oppsForBuy,
    oppOf, profitPct, sortDesc, insHead, List.filterMap]

/-- Exchange lookups that raise contribute nothing to get_prices: a feed
with its raising entries removed yields the same quotes, because each
lookup runs in its own try/except inside get_prices. -/
theorem get_prices_drop_errors
    (feed : List (String × Except String (Option ℚ))) :
    ArbitrageBot.get_prices (feed.filter fun e => !ArbitrageBot.isErr e.2) =
      ArbitrageBot.get_prices feed := by
  induction feed with
  | nil => rfl
  | cons e rest ih =>
    obtain ⟨name, r⟩ := e
    cases r with
    | error err =>
      rw [List.filter_cons, if_neg (by simp [ArbitrageBot.isErr])]
      rw [ih]
      show ArbitrageBot.get_prices rest = _
      unfold ArbitrageBot.get_prices
      rw [List.filterMap_cons,
        show ArbitrageBot.priceEntry (name, Except.error err) = none from rfl]
    | ok v =>
      rw [List.filter_cons, if_pos (by simp [ArbitrageBot.isErr])]
      unfold ArbitrageBot.get_prices
      rw [List.filterMap_cons, List.filterMap_cons]
      cases hpe : ArbitrageBot.priceEntry (name, Except.ok v) with
      | none => exact ih
      | some q => exact congrArg (List.cons q) ih

/-- C1.  The claim says the estimated net profit equals loan_amount *
profit_percentage / 100 - loan_amount * fee_rate - gas_cost_estimate,
47.1 on the scenario-C input, and the spec formula does yield 47.1
there.  The code, however, calls the async calculate_optimal_loan_amount
without await (src/flashloan_bot.py line 80) and multiplies the
resulting coroutine object by the Decimal fee rate at line 81, so
calculate_flashloan_profit raises TypeError on every input - in
particular on the scenario-C opportunity with a healthy gas oracle - and
never returns any number at all. -/
theorem C1_code_behavior :
    (∀ (gas_oracle : Except String ℕ) (opp : FLOpportunity),
        FlashLoanBot.calculate_flashloan_profit gas_oracle opp =
          Except.error "TypeError") ∧
      FlashLoanBot.calculate_flashloan_profit (Except.ok 30000000000)
          scenarioC = Except.error "TypeError" ∧
      estimate_net_profit_spec 1000 5 (9 / 10000) 2 = 471 / 10 := by
  refine ⟨fun gas_oracle opp => rfl, rfl, ?_⟩
  norm_num [estimate_net_profit_spec]

/-- C2.  On a snapshot of strictly positive prices, every opportunity
returned by find_arbitrage_opportunities has distinct buy and sell
exchanges, its profit percentage is (sell_price - buy_price) / buy_price
* 100, it reaches the threshold, and its buy and sell quotes are entries
of the snapshot. -/
theorem C2_detector_invariants (now : String) (prices : List (String × ℚ))
    (pairName : String) (threshold : ℚ)
    (hpos : ∀ e ∈ prices, (0 : ℚ) < e.2) :
    ∀ o ∈ find_arbitrage_opportunities now prices pairName threshold,
      o.buy_exchange ≠ o.sell_exchange ∧
      o.profit_percentage =
        (o.sell_price - o.buy_price) / o.buy_price * 100 ∧
      threshold ≤ o.profit_percentage ∧
      (o.buy_exchange, o.buy_price) ∈ prices ∧
      (o.sell_exchange, o.sell_price) ∈ prices := by
  intro o ho
  unfold find_arbitrage_opportunities at ho
  by_cases hlen : prices.length < 2
  · rw [if_pos hlen] at ho
    exact absurd ho (List.not_mem_nil o)
  · rw [if_neg hlen, mem_sortDesc] at ho
    unfold genOpportunities at ho
    rw [List.mem_flatMap] at ho
    obtain ⟨b, hb, hob⟩ := ho
    unfold oppsForBuy at hob
    rw [List.mem_filterMap] at hob
    obtain ⟨s, hs, hfs⟩ := hob
    unfold oppOf at hfs
    by_cases hcond :
      b.1 ≠ s.1 ∧ 0 < b.2 ∧ 0 < s.2 ∧ threshold ≤ profitPct b.2 s.2
    · rw [if_pos hcond] at hfs
      obtain ⟨hne, hbp, hsp, hth⟩ := hcond
      injection hfs with hrec
      subst hrec
      exact ⟨hne, rfl, hth, hb, hs⟩
    · rw [if_neg hcond] at hfs
      exact absurd hfs (by simp)

/-- C2 witness: the theorem applied to the scenario-A snapshot and the
single opportunity it produces. -/
theorem C2_witness :
    opp0.buy_exchange ≠ opp0.sell_exchange ∧
      opp0.profit_percentage =
        (opp0.sell_price - opp0.buy_price) / opp0.buy_price * 100 ∧
      (1 : ℚ) ≤ opp0.profit_percentage ∧
      (opp0.buy_exchange, opp0.buy_price) ∈ prices0 ∧
      (opp0.sell_exchange, opp0.sell_price) ∈ prices0 :=
  C2_detector_invariants "t0" prices0 "WETH/USDC" 1
    (by norm_num [prices0]) opp0
    (by rw [find_arb_eval "t0"]; exact List.mem_singleton.mpr rfl)

/-- C3.  The claim says any threshold at most 0 is rejected at the
mutation boundary with the configured threshold left intact; the repo's
own test_error_handling expects ArbitrageBot.update_threshold(-1) to
raise.  The code has no validation: called with -1 on a bot whose
threshold is 1, it assigns -1 and persists it to the configuration
file. -/
theorem C3_code_behavior :
    (ArbitrageBot.update_threshold botState0 (-1)).threshold = -1 ∧
      botState0.threshold = 1 ∧
      (ArbitrageBot.update_threshold botState0 (-1)).saved =
        some { pairs := [], threshold := -1, max_loan_amount := 1000,
               monitoring_enabled := true, notification_enabled := true } :=
  ⟨rfl, rfl, rfl⟩

/-- C4 amended.  Exceptions raised by individual price lookups are caught
per exchange inside get_prices, so a cycle evaluates every configured
pair no matter which lookups throw; indeed the cycle's outcome is the
same as if the throwing exchanges were absent from the feed. -/
theorem C4_lookup_errors_absorbed (now : String) (threshold : ℚ)
    (pairFeeds : List (String × List (String × Except String (Option ℚ)))) :
    (ArbitrageBot.monitor_cycle now threshold pairFeeds).length =
        pairFeeds.length ∧
      ArbitrageBot.monitor_cycle now threshold
          (pairFeeds.map fun pf =>
            (pf.1, pf.2.filter fun e => !ArbitrageBot.isErr e.2)) =
        ArbitrageBot.monitor_cycle now threshold pairFeeds := by
  constructor
  · simp [ArbitrageBot.monitor_cycle]
  · unfold ArbitrageBot.monitor_cycle
    rw [List.map_map]
    congr 1
    funext pf
    show ArbitrageBot.evaluate_pair now threshold pf.1
        (pf.2.filter fun e => !ArbitrageBot.isErr e.2) =
      ArbitrageBot.evaluate_pair now threshold pf.1 pf.2
    unfold ArbitrageBot.evaluate_pair
    rw [get_prices_drop_errors]

/-- C4 counterexample.  The claim says that when the evaluation of one
pair raises, the remaining pairs of the cycle are still evaluated.  The
try block of monitor_pairs wraps the whole for-loop, so in a three-pair
cycle whose second pair's evaluation raises, only the first pair is
evaluated: the cycle produces one result, not the claimed other two. -/
theorem C4_counterexample :
    ArbitrageBot.cycleWithAbort
        [Except.ok (1 : ℕ), Except.error "RuntimeError", Except.ok 3] =
        [1] ∧
      (ArbitrageBot.cycleWithAbort
          [Except.ok (1 : ℕ), Except.error "RuntimeError",
            Except.ok 3]).length ≠ 3 :=
  ⟨rfl, by decide⟩

/-- C5 counterexample.  The claim says the loan sizing always returns a
value in (0, max_loan_amount].  An opportunity dict whose amount entry is
0 makes calculate_optimal_loan_amount return min(0 * 10, 1000) = 0,
which is not strictly positive even though max_loan_amount = 1000 > 0. -/
theorem C5_counterexample :
    ¬ (0 < FlashLoanBot.calculate_optimal_loan_amount 1000 oppZeroAmount) ∧
      (0 : ℚ) < 1000 ∧
      FlashLoanBot.calculate_optimal_loan_amount 1000 oppZeroAmount = 0 := by
  norm_num [FlashLoanBot.calculate_optimal_loan_amount, oppZeroAmount,
    min_def]

/-- C5 amended.  Whenever the opportunity's nominal amount (default 100
when the entry is absent, as on every detector-produced opportunity) is
strictly positive and max_loan_amount > 0, the computed loan amount lies
in (0, max_loan_amount]. -/
theorem C5_amended_positive_amount (max_loan : ℚ) (opp : FLOpportunity)
    (hmax : 0 < max_loan) (hamt : 0 < opp.amount.getD 100) :
    0 < FlashLoanBot.calculate_optimal_loan_amount max_loan opp ∧
      FlashLoanBot.calculate_optimal_loan_amount max_loan opp ≤ max_loan := by
  unfold FlashLoanBot.calculate_optimal_loan_amount
  constructor
  · exact lt_min (by linarith) hmax
  · exact min_le_right _ _

/-- C5 witness: the amended theorem applied to the scenario-C opportunity
(no amount entry, so the default 100 applies) and max_loan_amount 1000. -/
theorem C5_witness :
    (0 : ℚ) < 1000 ∧ 0 < scenarioC.amount.getD 100 ∧
      (0 < FlashLoanBot.calculate_optimal_loan_amount 1000 scenarioC ∧
        FlashLoanBot.calculate_optimal_loan_amount 1000 scenarioC ≤ 1000) :=
  ⟨by norm_num, by norm_num [scenarioC],
    C5_amended_positive_amount 1000 scenarioC (by norm_num)
      (by norm_num [scenarioC])⟩

/-- C6.  The detector output is sorted by profit_percentage descending,
and at every key value the output restricted to that key equals the
generated list (original exchange-iteration order) restricted to that
key: equal percentages keep their generation order, i.e. the sort is
stable. -/
theorem C6_sorted_stable (now : String) (prices : List (String × ℚ))
    (pairName : String) (threshold : ℚ) :
    (find_arbitrage_opportunities now prices pairName threshold).Pairwise
        (fun a b => b.profit_percentage ≤ a.profit_percentage) ∧
      ∀ k : ℚ,
        (find_arbitrage_opportunities now prices pairName threshold).filter
            (fun o => decide (o.profit_percentage = k)) =
          (genOpportunities now pairName threshold prices).filter
            fun o => decide (o.profit_percentage = k) := by
  unfold find_arbitrage_opportunities
  by_cases hlen : prices.length < 2
  · rw [if_pos hlen]
    refine ⟨List.Pairwise.nil, fun k => ?_⟩
    rw [genOpportunities_short now pairName threshold prices hlen]
  · rw [if_neg hlen]
    exact ⟨sortDesc_pairwise _, fun k => sortDesc_filter k _⟩

/-- C7.  Whenever the gas oracle raises, estimate_gas_cost returns the
fixed fallback Decimal("0.01"), which is strictly positive; being a total
function into the rationals, it never propagates the failure. -/
theorem C7_gas_fallback (e : String) :
    FlashLoanBot.estimate_gas_cost (Except.error e) = 1 / 100 ∧
      0 < FlashLoanBot.estimate_gas_cost (Except.error e) := by
  refine ⟨rfl, ?_⟩
  norm_num [FlashLoanBot.estimate_gas_cost]

/-- C8 amended.  All fields except the timestamp are a pure deterministic
function of the snapshot, pair and threshold: two invocations at clock
values now1 and now2 agree up to restamping every timestamp. -/
theorem C8_pure_modulo_timestamp (now1 now2 : String)
    (prices : List (String × ℚ)) (pairName : String) (threshold : ℚ) :
    find_arbitrage_opportunities now1 prices pairName threshold =
      (find_arbitrage_opportunities now2 prices pairName threshold).map
        (retime now1) := by
  unfold find_arbitrage_opportunities
  by_cases hlen : prices.length < 2
  · rw [if_pos hlen, if_pos hlen]
    rfl
  · rw [if_neg hlen, if_neg hlen,
      genOpportunities_retime now1 now2 pairName threshold prices,
      sortDesc_retime]

/-- C8 counterexample.  The claim says two invocations with the same
snapshot, pair and threshold return equal sequences with no side effects;
but every returned opportunity embeds datetime.now() read at invocation
time, so two invocations at different clock readings return unequal
sequences on the scenario-A snapshot. -/
theorem C8_counterexample :
    find_arbitrage_opportunities "t1" prices0 "WETH/USDC" 1 ≠
      find_arbitrage_opportunities "t2" prices0 "WETH/USDC" 1 := by
  rw [find_arb_eval "t1", find_arb_eval "t2"]
  intro h
  simp at h

/-- Splitting a list of characters that does not contain the separator
yields the singleton group holding the whole list. -/
theorem pySplit_no_sep (sep : Char) (l : List Char) (h : sep ∉ l) :
    pySplit sep l = [l] := by
  induction l with
  | nil => rfl
  | cons c rest ih =>
    have hc : ¬ c = sep := fun hceq =>
      h (List.mem_cons.mpr (Or.inl hceq.symm))
    have hrest : sep ∉ rest := fun hr => h (List.mem_cons.mpr (Or.inr hr))
    simp [pySplit, ih hrest, hc]

/-- A pair string without the separator splits into a single part, so
TradingPair(*parts) raises TypeError: the quote argument is missing. -/
theorem parsePairString_no_sep (p : List Char) (h : ('/' : Char) ∉ p) :
    parsePairString p = Except.error "TypeError" := by
  unfold parsePairString
  rw [pySplit_no_sep '/' p h]

/-- The left-to-right comprehension raises as soon as any element fails
to parse. -/
theorem parseTradingPairs_error (l : List (List Char)) (p : List Char)
    (hp : p ∈ l) (herr : parsePairString p = Except.error "TypeError") :
    ∃ e, parseTradingPairs l = Except.error e := by
  induction l with
  | nil => cases hp
  | cons q rest ih =>
    rcases List.mem_cons.mp hp with rfl | hmem
    · exact ⟨"TypeError", by simp [parseTradingPairs, herr]⟩
    · cases hq : parsePairString q with
      | error e => exact ⟨e, by simp [parseTradingPairs, hq]⟩
      | ok tp =>
        obtain ⟨e, he⟩ := ih hmem
        exact ⟨e, by simp [parseTradingPairs, hq, he]⟩

/-- C9.  If any new pair string contains no '/' separator, the update
raises while the comprehension is still being evaluated — before
self.pairs is assigned and before save_config runs — so no successor
state is produced and both the in-memory pairs and the persisted
configuration remain those of the prior state. -/
theorem C9_atomic_reject (s : BotState) (new_pairs : List (List Char))
    (h : ∃ p ∈ new_pairs, ('/' : Char) ∉ p) :
    ∃ e, ArbitrageBot.update_trading_pairs s new_pairs = Except.error e := by
  obtain ⟨p, hp, hnos⟩ := h
  obtain ⟨e, he⟩ :=
    parseTradingPairs_error new_pairs p hp (parsePairString_no_sep p hnos)
  refine ⟨e, ?_⟩
  unfold ArbitrageBot.update_trading_pairs
  rw [he]

/-- C9 witness: updating with the single malformed pair string INVALID
raises and produces no successor state. -/
theorem C9_witness :
    ∃ e, ArbitrageBot.update_trading_pairs botState0 [badPair] =
      Except.error e :=
  C9_atomic_reject botState0 [badPair] ⟨badPair, by decide, by decide⟩

/-- C10.  The Slack-facing threshold command rejects every value above 50
with the explicit too-high message, leaving the bot state (and thus the
configured threshold) unchanged, and such a call is never reported as
accepted: together with the nonpositive branch, a new threshold is
accepted only inside (0, 50]. -/
theorem C10_threshold_upper_bound (s : BotState) (t : ℚ) (h : 50 < t) :
    (SlackBot.update_threshold s t).1 = s ∧
      (SlackBot.update_threshold s t).2 =
        SlackBot.ThresholdReply.rejectedTooHigh ∧
      SlackBot.isAccepted (SlackBot.update_threshold s t).2 = false := by
  have h0 : ¬ t ≤ 0 := by linarith
  simp [SlackBot.update_threshold, h0, h, SlackBot.isAccepted]

/-- C10 witness: the theorem applied at threshold 51 on the default
state. -/
theorem C10_witness :
    50 < (51 : ℚ) ∧
      ((SlackBot.update_threshold botState0 51).1 = botState0 ∧
        (SlackBot.update_threshold botState0 51).2 =
          SlackBot.ThresholdReply.rejectedTooHigh ∧
        SlackBot.isAccepted (SlackBot.update_threshold botState0 51).2 =
          false) :=
  ⟨by norm_num, C10_threshold_upper_bound botState0 51 (by norm_num)⟩

end CryptoArb
